import Mathlib

/-!
Shallow embedding of the pg-transactions connection/transaction layer
(DBConnection.js — given unnamed — and DBTransaction.js).

Modelling conventions:
* Errors, SQL result values and query parameters are opaque strings.
* The underlying node-postgres client is a deterministic response function
  `Client : String → List Value → Except Err Res` giving, for each
  (sql, params) pair, either the driver error or the result the client's
  callback would deliver.
* The metrics sink (`Metrics.measure/increment/timing`) and the pool
  introspection `DBConnection._getPoolUtilization` may throw in JS, so they
  are modelled as `Except Err _` valued fields of an `Env`; the environment
  variable `process.env.PGBOUNCER_MAX_CLIENT_CONN` is `Option String` and
  `Date.now()` is `env.now`.
* Each operation returns its visible side effects as a `List Effect` trace,
  in execution order, together with the mutated handle state and either the
  value the user callback is invoked with (encoded as data, invoked after
  every traced effect) or the exception that escaped before any callback
  could run (`Option Err` / the outer `Except Err` layer).
-/

abbrev Err := String
abbrev Res := String
abbrev Value := String

abbrev Client := String → List Value → Except Err Res

/-- State of a `DBConnection` handle: the `_released` flag set by the
constructor to `false` (DBConnection.js constructor). The `client` and
`releaseFn` fields are externalised into `Client` and the effect trace. -/
structure ConnState where
  released : Bool
  deriving Repr, DecidableEq

/-- Visible side effects, in execution order: invocations of the pool's
release callback (`releaseFn(dispose)`), calls into the metrics sink, and
invocations of a transaction's user callback (`cb(err)` in
`commit`/`rollback`). -/
inductive Effect where
  | releaseCall (dispose : Bool)
  | measure (key : String) (value : Int)
  | increment (key : String)
  | timing (key : String) (start : Int)
  | txnCallback (err : Option Err)
  deriving Repr, DecidableEq

/-- External collaborators: the metrics sink (whose operations may throw),
the pool-utilization lookup `_getPoolUtilization` (documented in the source
to throw when no pool exists yet), the environment variable read by
`_getPoolSize`, and the clock used for the latency metric. -/
structure Env where
  measure : String → Int → Except Err Unit
  increment : String → Except Err Unit
  timing : String → Int → Except Err Unit
  getPoolUtilization : Except Err Int
  envVar : Option String
  now : Int

/-- The metrics sink and the pool-utilization lookup are well behaved:
no call into them throws. -/
def Env.ok (env : Env) : Prop :=
  (∀ k v, env.measure k v = .ok ()) ∧
  (∀ k, env.increment k = .ok ()) ∧
  (∀ k t, env.timing k t = .ok ()) ∧
  (∃ n, env.getPoolUtilization = .ok n)

namespace DBConnection

/-- `DEFAULT_CONNECTION_POOL_SIZE` (DBConnection.js line 38). -/
def DEFAULT_CONNECTION_POOL_SIZE : Int := 100

/-- Longest leading run of decimal digits, as JS `parseInt` consumes. -/
def takeDigits : List Char → List Char
  | [] => []
  | c :: cs => if c.isDigit then c :: takeDigits cs else []

/-- Numeric value of a digit list, most significant first. -/
def digitsVal (cs : List Char) : Nat :=
  cs.foldl (fun acc c => 10 * acc + (c.toNat - 48)) 0

/-- JS `parseInt(s, 10)`: strip leading whitespace, optional sign, then the
longest decimal-digit prefix; `none` models `NaN` (no digits found). -/
def parseInt10 (s : String) : Option Int :=
  let cs := s.data.dropWhile Char.isWhitespace
  let signed : Int × List Char :=
    match cs with
    | '-' :: t => (-1, t)
    | '+' :: t => (1, t)
    | t => (1, t)
  let ds := takeDigits signed.2
  if ds.isEmpty then none else some (signed.1 * (digitsVal ds : Int))

/-- `DBConnection._getPoolSize` (DBConnection.js lines 150–158):
`parseInt(process.env.PGBOUNCER_MAX_CLIENT_CONN, 10)`, where an unset
variable coerces to the string `"undefined"`; a result `> 0` (`NaN > 0` is
false) is returned, otherwise the default 100. -/
def getPoolSize (envVar : Option String) : Int :=
  match parseInt10 (envVar.getD "undefined") with
  | some n => if n > 0 then n else DEFAULT_CONNECTION_POOL_SIZE
  | none => DEFAULT_CONNECTION_POOL_SIZE

/-- `DBConnection.prototype.release` (DBConnection.js lines 135–144).
No-op when `_released` is already set; otherwise calls `releaseFn(dispose)`,
sets `_released = true`, then reads `_getPoolUtilization()` and reports it
via `Metrics.measure` — both of which may throw, with no try/catch around
them: the third component is the exception escaping to the caller, `none`
when the call returns normally. Metric-sink calls are traced when attempted,
whether or not they throw. -/
def release (env : Env) (st : ConnState) (dispose : Bool) :
    ConnState × List Effect × Option Err :=
  if st.released then (st, [], none)
  else
    let st' : ConnState := { released := true }
    match env.getPoolUtilization with
    | .error e => (st', [.releaseCall dispose], some e)
    | .ok n =>
      match env.measure "db.txn_conn_pool.release.count" n with
      | .error e =>
        (st', [.releaseCall dispose, .measure "db.txn_conn_pool.release.count" n], some e)
      | .ok _ =>
        (st', [.releaseCall dispose, .measure "db.txn_conn_pool.release.count" n], none)

/-- `DBConnection.prototype.query` (DBConnection.js lines 114–127).
`values = none` is the two-argument call `query(sql, cb)`, normalised to the
empty parameter list by the `cb === null || typeof cb === "undefined"`
branch. The client's callback then either releases the connection in dispose
mode and hands `cb` the error, or hands `cb` the result. Result value:
outer `.error` = an exception (from the unguarded release path) escaped and
`cb` never ran; `.ok (.error e)` = `cb(e)`; `.ok (.ok r)` = `cb(null, r)`. -/
def query (env : Env) (client : Client) (st : ConnState)
    (sql : String) (values : Option (List Value)) :
    ConnState × List Effect × Except Err (Except Err Res) :=
  let vals := values.getD []
  match client sql vals with
  | .error e =>
    match release env st true with
    | (st', effs, some ex) => (st', effs, .error ex)
    | (st', effs, none) => (st', effs, .ok (.error e))
  | .ok r => (st, [], .ok (.ok r))

/-- `DBConnection.get` (DBConnection.js lines 59–75). `connectResult` is the
Pool Adapter's answer to `pg.connect`: an error, or a raw client plus release
callback. `_setPoolSize()` runs first (line 60) and fixes the pool size the
`db.txn_conn_pool.total` metric later reports. On connect error the user
callback gets the error and nothing else happens. Otherwise the utilization
lookup and its `measure` call sit inside `try {} catch` (lines 66–69), while
the three following sink calls are unguarded. Result value: outer `.error` =
an unguarded sink call threw and the user callback never ran;
`.ok (.error e)` = `cb(err)`; `.ok (.ok st)` = `cb(err, new DBConnection)`
handing out a handle in state `st`. -/
def get (env : Env) (connectResult : Except Err Unit) :
    List Effect × Except Err (Except Err ConnState) :=
  let poolSize := getPoolSize env.envVar
  match connectResult with
  | .error e => ([], .ok (.error e))
  | .ok _ =>
    let tryEffs : List Effect :=
      match env.getPoolUtilization with
      | .error _ => []
      | .ok n => [.measure "db.txn_conn_pool.count" n]
    match env.measure "db.txn_conn_pool.total" poolSize with
    | .error ex => (tryEffs ++ [.measure "db.txn_conn_pool.total" poolSize], .error ex)
    | .ok _ =>
      match env.increment "db.txn_conn_pool.get" with
      | .error ex =>
        (tryEffs ++ [.measure "db.txn_conn_pool.total" poolSize,
          .increment "db.txn_conn_pool.get"], .error ex)
      | .ok _ =>
        match env.timing "db.txn_conn_pool.get.latency" env.now with
        | .error ex =>
          (tryEffs ++ [.measure "db.txn_conn_pool.total" poolSize,
            .increment "db.txn_conn_pool.get",
            .timing "db.txn_conn_pool.get.latency" env.now], .error ex)
        | .ok _ =>
          (tryEffs ++ [.measure "db.txn_conn_pool.total" poolSize,
            .increment "db.txn_conn_pool.get",
            .timing "db.txn_conn_pool.get.latency" env.now],
           .ok (.ok { released := false }))

/-- `DBConnection.begin` (DBConnection.js lines 87–101): `get`, then
`conn.query('BEGIN', ...)` through the new handle (the two-argument form),
then the begin metrics. Result value: outer `.error` = an exception escaped
before the user callback; `.ok (.error e)` = `cb(err)`; `.ok (.ok st)` =
`cb(null, new DBTransaction(conn))` with the wrapped connection in state
`st`. -/
def «begin» (env : Env) (connectResult : Except Err Unit) (client : Client) :
    List Effect × Except Err (Except Err ConnState) :=
  match get env connectResult with
  | (tr, .error ex) => (tr, .error ex)
  | (tr, .ok (.error e)) => (tr, .ok (.error e))
  | (tr, .ok (.ok st)) =>
    match query env client st "BEGIN" none with
    | (_, effs, .error ex) => (tr ++ effs, .error ex)
    | (_, effs, .ok (.error e)) =>
      match env.increment "db.txn.begin.error" with
      | .error ex => (tr ++ effs ++ [.increment "db.txn.begin.error"], .error ex)
      | .ok _ => (tr ++ effs ++ [.increment "db.txn.begin.error"], .ok (.error e))
    | (st', effs, .ok (.ok _)) =>
      match env.increment "db.txn.begin.success" with
      | .error ex => (tr ++ effs ++ [.increment "db.txn.begin.success"], .error ex)
      | .ok _ => (tr ++ effs ++ [.increment "db.txn.begin.success"], .ok (.ok st'))

end DBConnection

namespace DBTransaction

/-- `DBTransaction.prototype.query` (DBTransaction.js lines 60–62):
`this.conn.query.apply(this.conn, arguments)` — forwards every argument to
the owned connection's `query` unchanged. -/
def query (env : Env) (client : Client) (st : ConnState)
    (sql : String) (values : Option (List Value)) :
    ConnState × List Effect × Except Err (Except Err Res) :=
  DBConnection.query env client st sql values

/-- `DBTransaction.prototype.commit` (DBTransaction.js lines 64–80):
`this.conn.query('COMMIT', handler)` (the two-argument form, so the
connection's own error path runs first), where the handler on error
increments `db.txn.commit.error` and hands `cb` the error, and on success
increments `db.txn.commit.success`, calls `that.conn.release(true)`, and
hands `cb` null. `hasCb` models the `if (cb)` guards. Third component: the
exception escaping to the caller, `none` on normal return. -/
def commit (env : Env) (client : Client) (st : ConnState) (hasCb : Bool) :
    ConnState × List Effect × Option Err :=
  match DBConnection.query env client st "COMMIT" none with
  | (st', effs, .error ex) => (st', effs, some ex)
  | (st', effs, .ok (.error e)) =>
    match env.increment "db.txn.commit.error" with
    | .error ex => (st', effs ++ [.increment "db.txn.commit.error"], some ex)
    | .ok _ =>
      if hasCb then
        (st', effs ++ [.increment "db.txn.commit.error", .txnCallback (some e)], none)
      else
        (st', effs ++ [.increment "db.txn.commit.error"], none)
  | (st', effs, .ok (.ok _)) =>
    match env.increment "db.txn.commit.success" with
    | .error ex => (st', effs ++ [.increment "db.txn.commit.success"], some ex)
    | .ok _ =>
      match DBConnection.release env st' true with
      | (st'', effs2, some ex) =>
        (st'', effs ++ [.increment "db.txn.commit.success"] ++ effs2, some ex)
      | (st'', effs2, none) =>
        if hasCb then
          (st'', effs ++ [.increment "db.txn.commit.success"] ++ effs2 ++
            [.txnCallback none], none)
        else
          (st'', effs ++ [.increment "db.txn.commit.success"] ++ effs2, none)

/-- `DBTransaction.prototype.rollback` (DBTransaction.js lines 42–58):
identical to `commit` except for the statement `ROLLBACK` and the metric
keys `db.txn.rollback.error` / `db.txn.rollback.success`. -/
def rollback (env : Env) (client : Client) (st : ConnState) (hasCb : Bool) :
    ConnState × List Effect × Option Err :=
  match DBConnection.query env client st "ROLLBACK" none with
  | (st', effs, .error ex) => (st', effs, some ex)
  | (st', effs, .ok (.error e)) =>
    match env.increment "db.txn.rollback.error" with
    | .error ex => (st', effs ++ [.increment "db.txn.rollback.error"], some ex)
    | .ok _ =>
      if hasCb then
        (st', effs ++ [.increment "db.txn.rollback.error", .txnCallback (some e)], none)
      else
        (st', effs ++ [.increment "db.txn.rollback.error"], none)
  | (st', effs, .ok (.ok _)) =>
    match env.increment "db.txn.rollback.success" with
    | .error ex => (st', effs ++ [.increment "db.txn.rollback.success"], some ex)
    | .ok _ =>
      match DBConnection.release env st' true with
      | (st'', effs2, some ex) =>
        (st'', effs ++ [.increment "db.txn.rollback.success"] ++ effs2, some ex)
      | (st'', effs2, none) =>
        if hasCb then
          (st'', effs ++ [.increment "db.txn.rollback.success"] ++ effs2 ++
            [.txnCallback none], none)
        else
          (st'', effs ++ [.increment "db.txn.rollback.success"] ++ effs2, none)

end DBTransaction

/-- Runs a whole sequence of `release(dispose)` calls on one handle,
threading the `_released` flag and concatenating the effect traces
(escaping exceptions, if any, do not stop later calls, which model
separate caller invocations). -/
def releaseSeq (env : Env) (st : ConnState) : List Bool → ConnState × List Effect
  | [] => (st, [])
  | d :: ds =>
    let step := DBConnection.release env st d
    let rest := releaseSeq env step.1 ds
    (rest.1, step.2.1 ++ rest.2)

/-- Number of release-callback invocations recorded in a trace. -/
def countReleases : List Effect → Nat
  | [] => 0
  | .releaseCall _ :: effs => countReleases effs + 1
  | _ :: effs => countReleases effs

/-- A well-behaved concrete environment: every sink call succeeds, the pool
reports 3 checked-out connections, the pool-size variable is unset. -/
def envOk : Env where
  measure := fun _ _ => .ok ()
  increment := fun _ => .ok ()
  timing := fun _ _ => .ok ()
  getPoolUtilization := .ok 3
  envVar := none
  now := 0

/-- Like `envOk` but the pool-utilization lookup throws, as
`_getPoolUtilization` does before any connection has been made. -/
def envNoPool : Env :=
  { envOk with getPoolUtilization := .error "no pool" }

/-- Like `envOk` but the metrics sink throws on the `db.txn_conn_pool.count`
key — the `measure` call inside `get`'s try/catch — and succeeds on every
other key. -/
def envBadCountMeasure : Env :=
  { envOk with measure := fun k _ =>
      if k = "db.txn_conn_pool.count" then .error "sink down" else .ok () }

/-- Like `envOk` but the metrics sink throws on the
`db.txn_conn_pool.release.count` key — the `measure` call inside `release` —
and succeeds on every other key. -/
def envBadReleaseMeasure : Env :=
  { envOk with measure := fun k _ =>
      if k = "db.txn_conn_pool.release.count" then .error "sink down" else .ok () }

/-- A client for which every statement succeeds with result `"done"`. -/
def clientOk : Client := fun _ _ => .ok "done"

/-- A client for which every statement fails with error `"boom"`. -/
def clientBoom : Client := fun _ _ => .error "boom"

/-- Proof that `envOk` satisfies `Env.ok`. -/
theorem envOk_ok : envOk.ok :=
  ⟨fun _ _ => rfl, fun _ => rfl, fun _ _ => rfl, ⟨3, rfl⟩⟩

section Helpers

/-- A handle whose `_released` flag is set is inert: `release` returns at
once with no effects and no exception. -/
theorem release_of_released (env : Env) (st : ConnState) (d : Bool)
    (h : st.released = true) : DBConnection.release env st d = (st, [], none) := by
  simp [DBConnection.release, h]

/-- From an unreleased handle, `release` sets the flag and its trace is the
release-callback invocation followed by effects containing no further
release-callback invocation. -/
theorem release_of_unreleased (env : Env) (d : Bool) :
    (DBConnection.release env ⟨false⟩ d).1 = ⟨true⟩ ∧
    ∃ effs, (DBConnection.release env ⟨false⟩ d).2.1 = Effect.releaseCall d :: effs ∧
      countReleases effs = 0 := by
  unfold DBConnection.release
  cases hu : env.getPoolUtilization with
  | error e => simp [countReleases]
  | ok n =>
    cases hm : env.measure "db.txn_conn_pool.release.count" n with
    | error e => simp [countReleases, hm]
    | ok u => simp [countReleases, hm]

/-- A released handle absorbs every further release in a sequence. -/
theorem releaseSeq_of_released (env : Env) (st : ConnState)
    (h : st.released = true) : ∀ ds, releaseSeq env st ds = (st, []) := by
  intro ds
  induction ds with
  | nil => rfl
  | cons d ds ih => simp [releaseSeq, release_of_released env st d h, ih]

end Helpers

/-- C7: when the Pool Adapter reports a checkout error, `get` invokes the
callback with that error and nothing else: no Connection Handle is created,
no metric is emitted, and no release-callback invocation occurs (the trace
is empty). -/
theorem C7_get_connect_error (env : Env) (e : Err) :
    DBConnection.get env (.error e) = ([], .ok (.error e)) := rfl

/-- C9: `DBTransaction.prototype.query` is extensionally equal to the owned
connection's `query` at every argument: the same callback value is delivered
and the connection state and effect trace are identical, so the
auto-release-on-error behaviour carries over unchanged. -/
theorem C9_txn_query_forwards (env : Env) (client : Client) (st : ConnState)
    (sql : String) (values : Option (List Value)) :
    DBTransaction.query env client st sql values =
      DBConnection.query env client st sql values := rfl

/-- C10: the two-argument call `query(sql, cb)` (modelled by `values = none`)
behaves identically to the three-argument call `query(sql, [], cb)`: the
omitted parameter list is normalised to the empty array. -/
theorem C10_query_arity (env : Env) (client : Client) (st : ConnState)
    (sql : String) :
    DBConnection.query env client st sql none =
      DBConnection.query env client st sql (some []) := rfl

/-- C3: over any sequence of `release` calls on one handle, the release
callback runs at most once; a released handle is inert; from an unreleased
handle a nonempty sequence invokes the callback exactly once — on the first
call, with that call's dispose flag — and sets the `_released` flag. -/
theorem C3_release_at_most_once (env : Env) (st : ConnState) (ds : List Bool) :
    countReleases (releaseSeq env st ds).2 ≤ 1 ∧
    (st.released = true → releaseSeq env st ds = (st, [])) ∧
    (∀ d ds₂, st.released = false → ds = d :: ds₂ →
      (releaseSeq env st ds).1 = ⟨true⟩ ∧
      countReleases (releaseSeq env st ds).2 = 1 ∧
      ∃ effs, (releaseSeq env st ds).2 = Effect.releaseCall d :: effs ∧
        countReleases effs = 0) := by
  rcases st with ⟨b⟩
  cases b with
  | true =>
    rw [releaseSeq_of_released env ⟨true⟩ rfl ds]
    refine ⟨by simp [countReleases], fun _ => rfl, fun d ds₂ h _ => by simp at h⟩
  | false =>
    cases ds with
    | nil =>
      refine ⟨by simp [releaseSeq, countReleases], fun h => by simp at h,
        fun d ds₂ _ h => by cases h⟩
    | cons d ds₂ =>
      obtain ⟨h1, effs, h2, h3⟩ := release_of_unreleased env d
      have habs := releaseSeq_of_released env ⟨true⟩ rfl ds₂
      have hstep : releaseSeq env ⟨false⟩ (d :: ds₂) =
          (⟨true⟩, Effect.releaseCall d :: effs) := by
        simp [releaseSeq, h1, habs, h2]
      rw [hstep]
      refine ⟨by simp [countReleases, h3], fun h => by simp at h, ?_⟩
      intro d₃ ds₃ _ hds
      injection hds with hd hds₂
      subst hd
      exact ⟨rfl, by simp [countReleases, h3], effs, rfl, h3⟩

/-- C3 witness: a concrete double release from a fresh handle invokes the
release callback exactly once, on the first call. -/
theorem C3_witness :
    countReleases (releaseSeq envOk ⟨false⟩ [true, false]).2 ≤ 1 ∧
    ((⟨false⟩ : ConnState).released = true → releaseSeq envOk ⟨false⟩ [true, false] = (⟨false⟩, [])) ∧
    (∀ d ds₂, (⟨false⟩ : ConnState).released = false → [true, false] = d :: ds₂ →
      (releaseSeq envOk ⟨false⟩ [true, false]).1 = ⟨true⟩ ∧
      countReleases (releaseSeq envOk ⟨false⟩ [true, false]).2 = 1 ∧
      ∃ effs, (releaseSeq envOk ⟨false⟩ [true, false]).2 = Effect.releaseCall d :: effs ∧
        countReleases effs = 0) :=
  C3_release_at_most_once envOk ⟨false⟩ [true, false]

/-- C1 counterexample: a `commit` whose COMMIT statement succeeds (concrete
well-behaved sink, client that accepts every statement, fresh handle)
invokes the release callback with `dispose = true`, never with
`dispose = false` — the release is in dispose mode, not pooled mode as the
claim states. -/
theorem C1_counterexample :
    DBTransaction.commit envOk clientOk ⟨false⟩ true =
      (⟨true⟩, [.increment "db.txn.commit.success", .releaseCall true,
        .measure "db.txn_conn_pool.release.count" 3, .txnCallback none], none) ∧
    Effect.releaseCall true ∈ (DBTransaction.commit envOk clientOk ⟨false⟩ true).2.1 ∧
    Effect.releaseCall false ∉ (DBTransaction.commit envOk clientOk ⟨false⟩ true).2.1 := by
  refine ⟨by decide, by decide, by decide⟩

/-- C4 counterexample: a `commit` whose COMMIT statement fails (fresh
handle, well-behaved sink) does NOT leave the connection state unchanged:
the query error path invokes the release callback (dispose mode) before the
failure metric and the callback, and the `_released` flag flips to true. -/
theorem C4_counterexample :
    DBTransaction.commit envOk clientBoom ⟨false⟩ true =
      (⟨true⟩, [.releaseCall true, .measure "db.txn_conn_pool.release.count" 3,
        .increment "db.txn.commit.error", .txnCallback (some "boom")], none) ∧
    Effect.releaseCall true ∈ (DBTransaction.commit envOk clientBoom ⟨false⟩ true).2.1 ∧
    (DBTransaction.commit envOk clientBoom ⟨false⟩ true).1.released = true := by
  refine ⟨by decide, by decide, by decide⟩

/-- C5 counterexample: when the pool-utilization lookup throws (as
`_getPoolUtilization` does when no pool exists), `release` on a fresh handle
lets that failure escape to the caller — it is not swallowed — even though
the release callback has run and the flag is set. -/
theorem C5_counterexample :
    DBConnection.release envNoPool ⟨false⟩ true =
      (⟨true⟩, [.releaseCall true], some "no pool") ∧
    (DBConnection.release envNoPool ⟨false⟩ true).2.2 ≠ none := by
  refine ⟨by decide, by decide⟩

/-- C1 (amended): on a successful COMMIT, `commit` emits the success metric
and releases the underlying connection in dispose mode — the release
callback is invoked with `dispose = true` (the source calls
`conn.release(true)`), not in pooled mode; `rollback` behaves identically
on a successful ROLLBACK with its own metric key. -/
theorem C1_commit_rollback_success (env : Env) (client : Client)
    (st : ConnState) (n : Int) (r r₂ : Res)
    (hi : ∀ k, env.increment k = .ok ())
    (hm : ∀ k v, env.measure k v = .ok ())
    (hu : env.getPoolUtilization = .ok n)
    (hc : client "COMMIT" [] = .ok r)
    (hr : client "ROLLBACK" [] = .ok r₂)
    (hst : st.released = false) :
    DBTransaction.commit env client st true =
      (⟨true⟩, [.increment "db.txn.commit.success", .releaseCall true,
        .measure "db.txn_conn_pool.release.count" n, .txnCallback none], none) ∧
    DBTransaction.rollback env client st true =
      (⟨true⟩, [.increment "db.txn.rollback.success", .releaseCall true,
        .measure "db.txn_conn_pool.release.count" n, .txnCallback none], none) := by
  obtain ⟨b⟩ := st
  cases b with
  | true => simp at hst
  | false =>
    constructor <;>
      simp [DBTransaction.commit, DBTransaction.rollback, DBConnection.query,
        DBConnection.release, hc, hr, hi, hm, hu]

/-- C1 witness: the amended claim at the concrete well-behaved environment
and all-succeeding client. -/
theorem C1_witness :
    DBTransaction.commit envOk clientOk ⟨false⟩ true =
      (⟨true⟩, [.increment "db.txn.commit.success", .releaseCall true,
        .measure "db.txn_conn_pool.release.count" 3, .txnCallback none], none) ∧
    DBTransaction.rollback envOk clientOk ⟨false⟩ true =
      (⟨true⟩, [.increment "db.txn.rollback.success", .releaseCall true,
        .measure "db.txn_conn_pool.release.count" 3, .txnCallback none], none) :=
  C1_commit_rollback_success envOk clientOk ⟨false⟩ 3 "done" "done"
    (fun _ => rfl) (fun _ _ => rfl) rfl rfl rfl rfl

/-- C2: on an unreleased handle, a client error makes `query` release the
connection with `dispose = true` (flag set, release callback traced before
the callback value is delivered) and hand the callback that error; a client
success delivers the result and leaves the `_released` flag false. -/
theorem C2_query_error_releases (env : Env) (client : Client) (st : ConnState)
    (sql : String) (values : Option (List Value)) (n : Int) (e : Err) (r : Res)
    (hm : ∀ k v, env.measure k v = .ok ())
    (hu : env.getPoolUtilization = .ok n)
    (hst : st.released = false) :
    (client sql (values.getD []) = .error e →
      DBConnection.query env client st sql values =
        (⟨true⟩, [.releaseCall true, .measure "db.txn_conn_pool.release.count" n],
          .ok (.error e))) ∧
    (client sql (values.getD []) = .ok r →
      DBConnection.query env client st sql values = (⟨false⟩, [], .ok (.ok r))) := by
  obtain ⟨b⟩ := st
  cases b with
  | true => simp at hst
  | false =>
    constructor
    · intro hq
      simp [DBConnection.query, hq, DBConnection.release, hu, hm]
    · intro hq
      simp [DBConnection.query, hq]

/-- C2 witness: the error half at a concrete failing client. -/
theorem C2_witness :
    DBConnection.query envOk clientBoom ⟨false⟩ "SELECT 1" none =
      (⟨true⟩, [.releaseCall true, .measure "db.txn_conn_pool.release.count" 3],
        .ok (.error "boom")) :=
  (C2_query_error_releases envOk clientBoom ⟨false⟩ "SELECT 1" none 3 "boom" "done"
    (fun _ _ => rfl) rfl rfl).1 rfl

/-- C4 (amended): on a failed COMMIT (or ROLLBACK) from an unreleased
handle, the failure metric is emitted and the error passed to the callback,
but the Connection Handle is NOT left unchanged: the connection's own query
error path has already invoked the release callback with `dispose = true`
and set the `_released` flag before the metric and the callback run. -/
theorem C4_commit_rollback_failure (env : Env) (client : Client)
    (st : ConnState) (n : Int) (e : Err)
    (hi : ∀ k, env.increment k = .ok ())
    (hm : ∀ k v, env.measure k v = .ok ())
    (hu : env.getPoolUtilization = .ok n)
    (hc : client "COMMIT" [] = .error e)
    (hr : client "ROLLBACK" [] = .error e)
    (hst : st.released = false) :
    DBTransaction.commit env client st true =
      (⟨true⟩, [.releaseCall true, .measure "db.txn_conn_pool.release.count" n,
        .increment "db.txn.commit.error", .txnCallback (some e)], none) ∧
    DBTransaction.rollback env client st true =
      (⟨true⟩, [.releaseCall true, .measure "db.txn_conn_pool.release.count" n,
        .increment "db.txn.rollback.error", .txnCallback (some e)], none) := by
  obtain ⟨b⟩ := st
  cases b with
  | true => simp at hst
  | false =>
    constructor <;>
      simp [DBTransaction.commit, DBTransaction.rollback, DBConnection.query,
        DBConnection.release, hc, hr, hi, hm, hu]

/-- C4 witness: the amended claim at the concrete failing client. -/
theorem C4_witness :
    DBTransaction.commit envOk clientBoom ⟨false⟩ true =
      (⟨true⟩, [.releaseCall true, .measure "db.txn_conn_pool.release.count" 3,
        .increment "db.txn.commit.error", .txnCallback (some "boom")], none) ∧
    DBTransaction.rollback envOk clientBoom ⟨false⟩ true =
      (⟨true⟩, [.releaseCall true, .measure "db.txn_conn_pool.release.count" 3,
        .increment "db.txn.rollback.error", .txnCallback (some "boom")], none) :=
  C4_commit_rollback_failure envOk clientBoom ⟨false⟩ 3 "boom"
    (fun _ => rfl) (fun _ _ => rfl) rfl rfl rfl rfl

/-- C5 (amended): only `get`'s pool-utilization lookup and the measure call
reporting it sit in a try/catch — a failure of either is swallowed and the
connection is still handed out (first two conjuncts). In `release` no such
guard exists: the connection is still released (callback invoked, flag set),
but a failure of the pool-utilization lookup, or of the metrics sink's
measure call, then escapes to the caller instead of being swallowed (last
two conjuncts). -/
theorem C5_release_failure_escapes (env : Env) (st : ConnState) (e : Err)
    (hst : st.released = false) :
    (env.getPoolUtilization = .error e →
      (∀ k v, env.measure k v = .ok ()) →
      (∀ k, env.increment k = .ok ()) →
      (∀ k t, env.timing k t = .ok ()) →
      DBConnection.get env (.ok ()) =
        ([.measure "db.txn_conn_pool.total" (DBConnection.getPoolSize env.envVar),
          .increment "db.txn_conn_pool.get",
          .timing "db.txn_conn_pool.get.latency" env.now], .ok (.ok ⟨false⟩))) ∧
    (∀ n, env.getPoolUtilization = .ok n →
      env.measure "db.txn_conn_pool.count" n = .error e →
      (∀ v, env.measure "db.txn_conn_pool.total" v = .ok ()) →
      (∀ k, env.increment k = .ok ()) →
      (∀ k t, env.timing k t = .ok ()) →
      DBConnection.get env (.ok ()) =
        ([.measure "db.txn_conn_pool.count" n,
          .measure "db.txn_conn_pool.total" (DBConnection.getPoolSize env.envVar),
          .increment "db.txn_conn_pool.get",
          .timing "db.txn_conn_pool.get.latency" env.now], .ok (.ok ⟨false⟩))) ∧
    (env.getPoolUtilization = .error e →
      ∀ d, DBConnection.release env st d = (⟨true⟩, [.releaseCall d], some e)) ∧
    (∀ n, env.getPoolUtilization = .ok n →
      env.measure "db.txn_conn_pool.release.count" n = .error e →
      ∀ d, DBConnection.release env st d =
        (⟨true⟩, [.releaseCall d, .measure "db.txn_conn_pool.release.count" n],
          some e)) := by
  obtain ⟨b⟩ := st
  cases b with
  | true => simp at hst
  | false =>
    refine ⟨?_, ?_, ?_, ?_⟩
    · intro hu hm hi ht
      simp [DBConnection.get, hm, hi, ht, hu]
    · intro n hu hmc hmt hi ht
      simp [DBConnection.get, hu, hmc, hmt, hi, ht]
    · intro hu d
      simp [DBConnection.release, hu]
    · intro n hu hmr d
      simp [DBConnection.release, hu, hmr]

/-- C5 witness: concrete environments exercising each half of the amended
claim — `get` swallows the throwing utilization lookup (`envNoPool`) and the
throwing guarded measure call (`envBadCountMeasure`), while `release` lets
the utilization failure and the sink failure escape after releasing. -/
theorem C5_witness :
    DBConnection.get envNoPool (.ok ()) =
      ([.measure "db.txn_conn_pool.total" (DBConnection.getPoolSize envNoPool.envVar),
        .increment "db.txn_conn_pool.get",
        .timing "db.txn_conn_pool.get.latency" envNoPool.now], .ok (.ok ⟨false⟩)) ∧
    DBConnection.get envBadCountMeasure (.ok ()) =
      ([.measure "db.txn_conn_pool.count" 3,
        .measure "db.txn_conn_pool.total" (DBConnection.getPoolSize envBadCountMeasure.envVar),
        .increment "db.txn_conn_pool.get",
        .timing "db.txn_conn_pool.get.latency" envBadCountMeasure.now], .ok (.ok ⟨false⟩)) ∧
    DBConnection.release envNoPool ⟨false⟩ true =
      (⟨true⟩, [.releaseCall true], some "no pool") ∧
    DBConnection.release envBadReleaseMeasure ⟨false⟩ true =
      (⟨true⟩, [.releaseCall true, .measure "db.txn_conn_pool.release.count" 3],
        some "sink down") :=
  ⟨(C5_release_failure_escapes envNoPool ⟨false⟩ "no pool" rfl).1 rfl
      (fun _ _ => rfl) (fun _ => rfl) (fun _ _ => rfl),
   (C5_release_failure_escapes envBadCountMeasure ⟨false⟩ "sink down" rfl).2.1 3 rfl
      rfl (fun _ => rfl) (fun _ => rfl) (fun _ _ => rfl),
   (C5_release_failure_escapes envNoPool ⟨false⟩ "no pool" rfl).2.2.1 rfl true,
   (C5_release_failure_escapes envBadReleaseMeasure ⟨false⟩ "sink down" rfl).2.2.2 3 rfl
      rfl true⟩

/-- C6: when checkout succeeds but BEGIN fails, `begin` emits
`db.txn.begin.error` and hands the callback the BEGIN error with no
Transaction Handle; the connection was already released in dispose mode by
the query error path (the `releaseCall true` precedes the failure metric in
the trace), so nothing stays checked out. When BEGIN succeeds it emits
`db.txn.begin.success` and hands the callback a Transaction Handle wrapping
the (still unreleased) connection. -/
theorem C6_begin_error_success (env : Env) (clientF clientS : Client)
    (n : Int) (e : Err) (r : Res)
    (hm : ∀ k v, env.measure k v = .ok ())
    (hi : ∀ k, env.increment k = .ok ())
    (ht : ∀ k t, env.timing k t = .ok ())
    (hu : env.getPoolUtilization = .ok n)
    (hbf : clientF "BEGIN" [] = .error e)
    (hbs : clientS "BEGIN" [] = .ok r) :
    DBConnection.«begin» env (.ok ()) clientF =
      ([.measure "db.txn_conn_pool.count" n,
        .measure "db.txn_conn_pool.total" (DBConnection.getPoolSize env.envVar),
        .increment "db.txn_conn_pool.get",
        .timing "db.txn_conn_pool.get.latency" env.now,
        .releaseCall true, .measure "db.txn_conn_pool.release.count" n,
        .increment "db.txn.begin.error"], .ok (.error e)) ∧
    DBConnection.«begin» env (.ok ()) clientS =
      ([.measure "db.txn_conn_pool.count" n,
        .measure "db.txn_conn_pool.total" (DBConnection.getPoolSize env.envVar),
        .increment "db.txn_conn_pool.get",
        .timing "db.txn_conn_pool.get.latency" env.now,
        .increment "db.txn.begin.success"], .ok (.ok ⟨false⟩)) := by
  constructor <;>
    simp [DBConnection.«begin», DBConnection.get, DBConnection.query,
      DBConnection.release, hm, hi, ht, hu, hbf, hbs]

/-- C6 witness: `begin` at the concrete environment with a client whose
BEGIN fails and one whose BEGIN succeeds. -/
theorem C6_witness :
    DBConnection.«begin» envOk (.ok ()) clientBoom =
      ([.measure "db.txn_conn_pool.count" 3,
        .measure "db.txn_conn_pool.total" (DBConnection.getPoolSize envOk.envVar),
        .increment "db.txn_conn_pool.get",
        .timing "db.txn_conn_pool.get.latency" envOk.now,
        .releaseCall true, .measure "db.txn_conn_pool.release.count" 3,
        .increment "db.txn.begin.error"], .ok (.error "boom")) ∧
    DBConnection.«begin» envOk (.ok ()) clientOk =
      ([.measure "db.txn_conn_pool.count" 3,
        .measure "db.txn_conn_pool.total" (DBConnection.getPoolSize envOk.envVar),
        .increment "db.txn_conn_pool.get",
        .timing "db.txn_conn_pool.get.latency" envOk.now,
        .increment "db.txn.begin.success"], .ok (.ok ⟨false⟩)) :=
  C6_begin_error_success envOk clientBoom clientOk 3 "boom" "done"
    (fun _ _ => rfl) (fun _ => rfl) (fun _ _ => rfl) rfl rfl rfl

/-- C8: the effective pool size is the environment override whenever
`parseInt(·, 10)` yields a positive integer, and the default 100 whenever
the override is unset, parses to zero or a negative value, or does not
parse at all (empty or non-numeric). -/
theorem C8_pool_size :
    (∀ s n, DBConnection.parseInt10 s = some n → 0 < n →
      DBConnection.getPoolSize (some s) = n) ∧
    (∀ s n, DBConnection.parseInt10 s = some n → n ≤ 0 →
      DBConnection.getPoolSize (some s) = 100) ∧
    (∀ s, DBConnection.parseInt10 s = none →
      DBConnection.getPoolSize (some s) = 100) ∧
    DBConnection.getPoolSize none = 100 ∧
    DBConnection.getPoolSize (some "7") = 7 ∧
    DBConnection.getPoolSize (some "") = 100 ∧
    DBConnection.getPoolSize (some "abc") = 100 ∧
    DBConnection.getPoolSize (some "0") = 100 ∧
    DBConnection.getPoolSize (some "-5") = 100 := by
  refine ⟨?_, ?_, ?_, by decide, by decide, by decide, by decide, by decide, by decide⟩
  · intro s m h hpos
    simp [DBConnection.getPoolSize, h, hpos]
  · intro s m h hle
    simp [DBConnection.getPoolSize, h, DBConnection.DEFAULT_CONNECTION_POOL_SIZE]
    omega
  · intro s h
    simp [DBConnection.getPoolSize, h, DBConnection.DEFAULT_CONNECTION_POOL_SIZE]

/-- C8 witness: a positive override value is taken verbatim. -/
theorem C8_witness : DBConnection.getPoolSize (some "42") = 42 :=
  C8_pool_size.1 "42" 42 (by decide) (by decide)
